import Mathlib

/-!
Verification of `github_team_management/manage_teams.py`, a CLI that grants a
GitHub team access to repositories and reports team-repository associations.

The HTTP layer is embedded shallowly: a `Response` records the status code,
whether the body parses as JSON (and the parsed body, abstracted to a string),
and the two rate-limit headers the script reads.  Network interaction is
modelled by a script of responses consumed in order; observable behaviour
(requests issued, log lines, sleeps, printed messages) is an event list.
-/

namespace ManageTeams

/-- Model of an HTTP response as observed by `manage_teams.py`: the status
code, the JSON body when the body parses as JSON (`none` when it does not),
the `X-RateLimit-Remaining` header when present, and the `X-RateLimit-Reset`
header value. -/
structure Response where
  status : Nat
  body : Option String
  remaining : Option String
  reset : Int
deriving Repr, DecidableEq

/-- Result of `requests.Response.raise_for_status()`: it raises exactly when
the status code is a 4xx or 5xx. -/
def raisesForStatus (status : Nat) : Bool :=
  400 ≤ status && status < 600

/-- Value returned by `add_team_to_repo` when it does not raise:
the success dict for a 204, the parsed JSON body for a non-204 with a
parseable body, or Python `None` when `raise_for_status` did not raise on a
non-204 response with an unparseable body. -/
inductive AddResult where
  | successMsg
  | jsonBody (b : String)
  | pyNone
deriving Repr, DecidableEq

/-- Embedding of `add_team_to_repo` (lines 22-38): a 204 yields the success
message; otherwise the parsed JSON body is returned when the body parses;
otherwise `raise_for_status` raises for 4xx/5xx and returns `None` (so the
function returns `None`) for any other status. `Except.error` carries the
response, matching `requests.exceptions.HTTPError.response`. -/
def add_team_to_repo (r : Response) : Except Response AddResult :=
  if r.status = 204 then .ok .successMsg
  else
    match r.body with
    | some b => .ok (.jsonBody b)
    | none => if raisesForStatus r.status then .error r else .ok .pyNone

/-- Embedding of `team_exists` (lines 17-20): the lookup returns `True`
exactly when the response status is 200. -/
def team_exists (status : Nat) : Bool :=
  status == 200

/-- Embedding of `handle_rate_limiting` (lines 51-61), with sleeping made
explicit: when the response has status 403 and carries an
`X-RateLimit-Remaining` header equal to `"0"`, it returns the duration
`max 0 (reset - now)` slept before returning `True`; otherwise it returns
`none`, standing for the `False` branch with no sleep. -/
def handle_rate_limiting (r : Response) (now : Int) : Option Int :=
  if r.status == 403 && r.remaining == some "0" then
    some (max 0 (r.reset - now))
  else
    none

/-- Embedding of Python's `str.lower` on the ASCII permission strings that
`argparse` admits: lower-case every character. -/
def str_lower (s : String) : String :=
  String.mk (s.data.map Char.toLower)

/-- Embedding of `main`'s permission normalisation (lines 147-149):
lower-case the argument, then map `read` to `pull` and `write` to `push`. -/
def normalize_permission (p : String) : String :=
  let p1 := str_lower p
  let p2 := if p1 = "read" then "pull" else p1
  if p2 = "write" then "push" else p2

/-- Embedding of `get_repo_names_from_csv` (lines 40-49) over the rows the
`csv.reader` yields: each row contributes its first column `row[0]`; an empty
row makes that indexing raise `IndexError`. -/
def get_repo_names_from_csv : List (List String) → Except String (List String)
  | [] => .ok []
  | row :: rest =>
    match row with
    | [] => .error "IndexError"
    | x :: _ => (get_repo_names_from_csv rest).map (x :: ·)

/-- One page of the paginated repository listing of `list_all_repos`:
the response status, the repository objects (represented by their `name`
field), and whether the response carries a `next` link relation. -/
structure Page where
  status : Nat
  names : List String
  hasNext : Bool
deriving Repr, DecidableEq

/-- Embedding of `list_all_repos` (lines 72-83) over the sequence of pages the
server returns: each iteration fetches the next page, `raise_for_status`
raises on a 4xx/5xx page, the page's repository objects are appended, and the
loop continues exactly when the response carries a `next` link. -/
def list_all_repos : List Page → Except Nat (List String)
  | [] => .ok []
  | p :: rest =>
    if raisesForStatus p.status then .error p.status
    else if p.hasNext then (list_all_repos rest).map (p.names ++ ·)
    else .ok p.names

/-- A well-formed pagination sequence: every page responds with a non-error
status, every page except the last carries a `next` link, and the last does
not. -/
def wellChained : List Page → Bool
  | [] => true
  | [p] => !raisesForStatus p.status && !p.hasNext
  | p :: q :: rest => !raisesForStatus p.status && p.hasNext && wellChained (q :: rest)

/-- Observable events of the `add-team` flow: the team-lookup GET, the PUT
issued by `add_team_to_repo` (with its full payload), the rate-limit sleep,
the per-repository success and failure log lines, and the printed message of
the missing-team branch. -/
inductive Event where
  | lookup (org team : String)
  | putReq (org team repo perm : String)
  | sleepFor (t : Int)
  | logSuccess (repo : String)
  | logError (repo : String)
  | printMsg (msg : String)
deriving Repr, DecidableEq

/-- Embedding of the inner `while True` loop of `add_teams_to_repos`
(lines 112-121) for one repository: each iteration issues the PUT and
consumes the next scripted response; a non-raising call logs success and
breaks; a raised `HTTPError` whose response is rate-limited sleeps and
retries; any other raised error logs the failure and breaks.  Returns the
events, the unconsumed responses, and the clock after the loop. -/
def grant_loop (org team repo perm : String) :
    List Response → Int → List Event × List Response × Int
  | [], now => ([], [], now)
  | r :: rest, now =>
    match add_team_to_repo r with
    | .ok _ => ([.putReq org team repo perm, .logSuccess repo], rest, now)
    | .error e =>
      match handle_rate_limiting e now with
      | some t =>
        let out := grant_loop org team repo perm rest (now + t)
        (.putReq org team repo perm :: .sleepFor t :: out.1, out.2.1, out.2.2)
      | none => ([.putReq org team repo perm, .logError repo], rest, now)

/-- Embedding of `add_teams_to_repos` (lines 107-121): the repositories are
processed sequentially, each running `grant_loop` on the remaining scripted
responses and clock. -/
def add_teams_to_repos (org team perm : String) :
    List String → List Response → Int → List Event
  | [], _, _ => []
  | repo :: repos, script, now =>
    let out := grant_loop org team repo perm script now
    out.1 ++ add_teams_to_repos org team perm repos out.2.1 out.2.2

/-- Embedding of `main`'s `add-team` branch (lines 159-162): `team_exists`
is consulted once on the lookup response's status; when it returns true the
bulk grant runs, otherwise the script prints a message and issues nothing. -/
def run_add_team (org team perm : String) (lookupStatus : Nat)
    (repos : List String) (script : List Response) (now : Int) : List Event :=
  Event.lookup org team ::
    (if team_exists lookupStatus then
      add_teams_to_repos org team perm repos script now
    else
      [Event.printMsg ("Team " ++ team ++ " does not exist in organization " ++ org ++ ".")])

/-- A team object of the `list_teams_for_repo` response: the `name` and
`permission` fields the report reads. -/
structure Team where
  name : String
  permission : String
deriving Repr, DecidableEq

/-- Embedding of the per-repository loop of `write_teams_to_csv`
(lines 93-104) over each repository's fetch outcome: a successful fetch
writes one CSV row per team; a fetch that raises `HTTPError` is caught and
the repository recorded as a logged failure.  Returns the data rows and the
failed repositories, both in processing order. -/
def report_rows : List (String × Except Unit (List Team)) →
    List (List String) × List String
  | [] => ([], [])
  | (repo, .ok teams) :: rest =>
    let out := report_rows rest
    (teams.map (fun t => [repo, t.name, t.permission]) ++ out.1, out.2)
  | (repo, .error _) :: rest =>
    let out := report_rows rest
    (out.1, repo :: out.2)

/-- Embedding of `write_teams_to_csv` (lines 85-105): the header row is
written first, then the per-repository rows in order. -/
def write_teams_to_csv (rs : List (String × Except Unit (List Team))) :
    List (List String) × List String :=
  let out := report_rows rs
  (["Repository", "Team", "Role"] :: out.1, out.2)

/-- Recogniser for team-lookup events. -/
def isLookupEv : Event → Bool
  | .lookup _ _ => true
  | _ => false

/-- Recogniser for PUT-request events. -/
def isPutEv : Event → Bool
  | .putReq _ _ _ _ => true
  | _ => false

/-- A rate-limit response as the claims describe it: status 403,
`X-RateLimit-Remaining` equal to `"0"`, reset timestamp `T`, and body `b`. -/
def rate_limit_response (b : Option String) (T : Int) : Response :=
  ⟨403, b, some "0", T⟩

/-- Claim C1 as stated: for every rate-limit response (status 403,
remaining `"0"`, reset `T`, any body) followed by a success response, the
retry loop sleeps at least `max 0 (T - now)`, re-issues the same request,
and the call succeeds. -/
def c1_claim : Prop :=
  ∀ (b : Option String) (T now : Int) (org team repo perm : String),
    (∃ t, max 0 (T - now) ≤ t ∧
      Event.sleepFor t ∈
        (grant_loop org team repo perm
          [rate_limit_response b T, ⟨204, none, none, 0⟩] now).1) ∧
    2 ≤ (grant_loop org team repo perm
          [rate_limit_response b T, ⟨204, none, none, 0⟩] now).1.count
            (Event.putReq org team repo perm) ∧
    Event.logSuccess repo ∈
      (grant_loop org team repo perm
        [rate_limit_response b T, ⟨204, none, none, 0⟩] now).1

/-- Claim C2 as stated: a 204 returns the success message, a non-204 with a
JSON body returns that body, and a non-204 with an unparseable body raises an
HTTP error. -/
def c2_claim : Prop :=
  ∀ r : Response,
    (r.status = 204 → add_team_to_repo r = .ok .successMsg) ∧
    (r.status ≠ 204 → ∀ b, r.body = some b → add_team_to_repo r = .ok (.jsonBody b)) ∧
    (r.status ≠ 204 → r.body = none → ∃ e, add_team_to_repo r = .error e)

/-- Helper: one-step unfolding of the pagination loop on a fetched page. -/
theorem list_all_repos_cons (p : Page) (rest : List Page) :
    list_all_repos (p :: rest) =
      if raisesForStatus p.status then .error p.status
      else if p.hasNext then (list_all_repos rest).map (p.names ++ ·)
      else .ok p.names := rfl

/-- Helper: `handle_rate_limiting` takes its `False` branch whenever the
response is not a primary rate-limit signal. -/
theorem handle_rate_limiting_not_limited (e : Response) (now : Int)
    (h : ¬(e.status = 403 ∧ e.remaining = some "0")) :
    handle_rate_limiting e now = none := by
  unfold handle_rate_limiting
  split
  · next hc =>
    exfalso
    simp only [Bool.and_eq_true, beq_iff_eq] at hc
    exact h hc
  · rfl

/-- C5: the permission transmitted to the API is `pull` for input `read`,
`push` for input `write`, and the input unchanged for the remaining valid
inputs `admin`, `maintain` and `triage`. -/
theorem c5_permission_normalization :
    normalize_permission "read" = "pull" ∧
    normalize_permission "write" = "push" ∧
    normalize_permission "admin" = "admin" ∧
    normalize_permission "maintain" = "maintain" ∧
    normalize_permission "triage" = "triage" := by
  refine ⟨?_, ?_, ?_, ?_, ?_⟩ <;> decide

/-- C6: `team_exists` returns true exactly when the lookup response status is
200; in particular 404, 403 and 500 all yield false. -/
theorem c6_team_exists_iff_200 :
    (∀ s : Nat, team_exists s = true ↔ s = 200) ∧
    team_exists 404 = false ∧ team_exists 403 = false ∧ team_exists 500 = false :=
  ⟨fun s => by simp [team_exists], rfl, rfl, rfl⟩

/-- C4: over any well-formed pagination sequence (each page non-error, every
page but the last carrying a `next` link), `list_all_repos` returns the
concatenation of the pages' repository names in page order; in particular
pages `[[a, b], [c]]` yield `[a, b, c]`. -/
theorem c4_list_all_repos_pagination :
    (∀ pages : List Page, wellChained pages = true →
      list_all_repos pages = .ok (pages.map Page.names).flatten) ∧
    (∀ a b c : String,
      list_all_repos [⟨200, [a, b], true⟩, ⟨200, [c], false⟩] = .ok [a, b, c]) := by
  constructor
  · intro pages
    induction pages with
    | nil => intro _; rfl
    | cons p rest ih =>
      cases rest with
      | nil =>
        intro h
        simp only [wellChained, Bool.and_eq_true, Bool.not_eq_true'] at h
        rw [list_all_repos_cons]
        simp [h.1, h.2]
      | cons q rest2 =>
        intro h
        simp only [wellChained, Bool.and_eq_true, Bool.not_eq_true'] at h
        obtain ⟨⟨h1, h2⟩, h3⟩ := h
        rw [list_all_repos_cons]
        rw [ih h3]
        simp [h1, h2, Except.map]
  · intro a b c
    rfl

/-- Witness for C4 at the concrete pagination `[[a, b], [c]]`. -/
theorem c4_list_all_repos_pagination_witness :
    wellChained [⟨200, ["a", "b"], true⟩, ⟨200, ["c"], false⟩] = true ∧
    list_all_repos [⟨200, ["a", "b"], true⟩, ⟨200, ["c"], false⟩] =
      .ok (([⟨200, ["a", "b"], true⟩, ⟨200, ["c"], false⟩] : List Page).map Page.names).flatten :=
  ⟨by decide,
   c4_list_all_repos_pagination.1 [⟨200, ["a", "b"], true⟩, ⟨200, ["c"], false⟩] (by decide)⟩

/-- C10: any CSV input containing at least one empty row makes
`get_repo_names_from_csv` raise `IndexError` when it indexes the first
column, instead of returning a list of repository names. -/
theorem c10_empty_row_raises_index_error :
    ∀ rows : List (List String), [] ∈ rows →
      get_repo_names_from_csv rows = .error "IndexError" := by
  intro rows
  induction rows with
  | nil => intro h; simp at h
  | cons row rest ih =>
    intro h
    cases row with
    | nil => rfl
    | cons x xs =>
      simp only [List.mem_cons] at h
      rcases h with h | h
      · exact absurd h (by simp)
      · simp [get_repo_names_from_csv, ih h, Except.map]

/-- Witness for C10 at the concrete CSV rows `[["a"], []]`. -/
theorem c10_empty_row_raises_index_error_witness :
    ([] : List String) ∈ [["a"], ([] : List String)] ∧
    get_repo_names_from_csv [["a"], []] = .error "IndexError" :=
  ⟨by decide, c10_empty_row_raises_index_error [["a"], []] (by decide)⟩

/-- C1 counterexample: the claim fails when the rate-limit response's body
parses as JSON (as real GitHub rate-limit responses do): `add_team_to_repo`
then returns the body instead of raising, so the loop logs success and never
sleeps or retries. -/
theorem c1_claim_counterexample : ¬ c1_claim := by
  intro h
  obtain ⟨⟨t, _, hmem⟩, _, _⟩ := h (some "rate limit exceeded") 100 0 "o" "t" "r" "pull"
  have heq : (grant_loop "o" "t" "r" "pull"
      [rate_limit_response (some "rate limit exceeded") 100, ⟨204, none, none, 0⟩] 0).1 =
      [.putReq "o" "t" "r" "pull", .logSuccess "r"] := by decide
  rw [heq] at hmem
  simp at hmem

/-- C1 amended: for a rate-limit response whose body is NOT parseable JSON
(the only case in which `add_team_to_repo` raises, letting the retry loop
engage) followed by a success response, the loop sleeps exactly
`max 0 (T - now)`, re-issues the identical request, and the call succeeds. -/
theorem c1_rate_limit_retry_nonjson :
    ∀ (T now : Int) (org team repo perm : String) (b2 rm2 : Option String) (rs2 : Int),
    grant_loop org team repo perm [rate_limit_response none T, ⟨204, b2, rm2, rs2⟩] now =
      ([.putReq org team repo perm, .sleepFor (max 0 (T - now)),
        .putReq org team repo perm, .logSuccess repo], [], now + max 0 (T - now)) := by
  intro T now org team repo perm b2 rm2 rs2
  simp [grant_loop, add_team_to_repo, handle_rate_limiting, rate_limit_response,
    raisesForStatus]

/-- C2 counterexample: a non-204 response whose body is not parseable JSON
does not always raise — on a non-error status such as 200,
`raise_for_status` raises nothing and the function returns `None`. -/
theorem c2_claim_counterexample : ¬ c2_claim := by
  intro h
  obtain ⟨e, he⟩ := (h ⟨200, none, none, 0⟩).2.2 (by decide) rfl
  simp [add_team_to_repo, raisesForStatus] at he

/-- C2 amended: a 204 returns the success message; a non-204 with a JSON body
returns that body; a non-204 with an unparseable body raises an HTTP error
exactly when the status is 4xx/5xx, and returns `None` otherwise. -/
theorem c2_add_team_to_repo_result : ∀ r : Response,
    (r.status = 204 → add_team_to_repo r = .ok .successMsg) ∧
    (r.status ≠ 204 → ∀ b, r.body = some b → add_team_to_repo r = .ok (.jsonBody b)) ∧
    (r.status ≠ 204 → r.body = none → raisesForStatus r.status = true →
      add_team_to_repo r = .error r) ∧
    (r.status ≠ 204 → r.body = none → raisesForStatus r.status = false →
      add_team_to_repo r = .ok .pyNone) := by
  intro r
  refine ⟨?_, ?_, ?_, ?_⟩
  · intro h; simp [add_team_to_repo, h]
  · intro hne b hb; simp [add_team_to_repo, hne, hb]
  · intro hne hb hr; simp [add_team_to_repo, hne, hb, hr]
  · intro hne hb hr; simp [add_team_to_repo, hne, hb, hr]

/-- Witness for C2 on all four branches: a 204, a 403 with a JSON body, a 500
with an unparseable body (raises), and a 302 with an unparseable body
(returns `None`). -/
theorem c2_add_team_to_repo_result_witness :
    add_team_to_repo ⟨204, none, none, 0⟩ = .ok .successMsg ∧
    add_team_to_repo ⟨403, some "forbidden", none, 0⟩ = .ok (.jsonBody "forbidden") ∧
    add_team_to_repo ⟨500, none, none, 0⟩ = .error ⟨500, none, none, 0⟩ ∧
    add_team_to_repo ⟨302, none, none, 0⟩ = .ok .pyNone :=
  ⟨(c2_add_team_to_repo_result _).1 rfl,
   (c2_add_team_to_repo_result _).2.1 (by decide) _ rfl,
   (c2_add_team_to_repo_result _).2.2.1 (by decide) rfl (by decide),
   (c2_add_team_to_repo_result _).2.2.2 (by decide) rfl (by decide)⟩

/-- C3: when the first repository's call raises a non-rate-limit HTTP error
and the second succeeds, the loop logs the first as failed after a single
attempt and still issues and completes the grant for the second. -/
theorem c3_bulk_grant_failure_isolated :
    ∀ (org team perm r1 r2 : String) (e : Response) (b2 rm2 : Option String) (rs2 now : Int),
    raisesForStatus e.status = true → e.body = none →
    ¬(e.status = 403 ∧ e.remaining = some "0") →
    add_teams_to_repos org team perm [r1, r2] [e, ⟨204, b2, rm2, rs2⟩] now =
      [.putReq org team r1 perm, .logError r1, .putReq org team r2 perm, .logSuccess r2] := by
  intro org team perm r1 r2 e b2 rm2 rs2 now hraise hbody hnot
  have hne : e.status ≠ 204 := by
    simp only [raisesForStatus, Bool.and_eq_true, decide_eq_true_eq] at hraise
    omega
  have h1 : add_team_to_repo e = .error e := by
    simp [add_team_to_repo, hne, hbody, hraise]
  have h2 : handle_rate_limiting e now = none :=
    handle_rate_limiting_not_limited e now hnot
  have h3 : add_team_to_repo ⟨204, b2, rm2, rs2⟩ = .ok .successMsg := by
    simp [add_team_to_repo]
  simp [add_teams_to_repos, grant_loop, h1, h2, h3]

/-- Witness for C3 with a 500 error (unparseable body) on `r1` and a 204 on
`r2`. -/
theorem c3_bulk_grant_failure_isolated_witness :
    raisesForStatus (Response.mk 500 none none 0).status = true ∧
    add_teams_to_repos "o" "t" "pull" ["r1", "r2"]
        [⟨500, none, none, 0⟩, ⟨204, none, none, 0⟩] 0 =
      [.putReq "o" "t" "r1" "pull", .logError "r1",
       .putReq "o" "t" "r2" "pull", .logSuccess "r2"] :=
  ⟨by decide,
   c3_bulk_grant_failure_isolated "o" "t" "pull" "r1" "r2"
     ⟨500, none, none, 0⟩ none none 0 0 (by decide) rfl (by decide)⟩

/-- C9: a non-204 response whose body parses as JSON makes the bulk-grant
loop log the per-repository success message and advance to the next
repository with no retry and no failure log — the events are exactly one PUT
and one success log, and the remaining script and clock are untouched. -/
theorem c9_json_error_logged_as_success :
    ∀ (org team perm repo : String) (repos : List String) (s : Nat) (b : String)
      (rm : Option String) (rs : Int) (rest : List Response) (now : Int),
    s ≠ 204 →
    add_teams_to_repos org team perm (repo :: repos) (⟨s, some b, rm, rs⟩ :: rest) now =
      .putReq org team repo perm :: .logSuccess repo ::
        add_teams_to_repos org team perm repos rest now := by
  intro org team perm repo repos s b rm rs rest now hne
  have h1 : add_team_to_repo ⟨s, some b, rm, rs⟩ = .ok (.jsonBody b) := by
    simp [add_team_to_repo, hne]
  simp [add_teams_to_repos, grant_loop, h1]

/-- Witness for C9: a 403 rate-limit response with a JSON body is logged as a
success and the batch moves on without sleeping. -/
theorem c9_json_error_logged_as_success_witness :
    add_teams_to_repos "o" "t" "pull" ["r1"]
        [⟨403, some "rate limit exceeded", some "0", 99⟩] 0 =
      [.putReq "o" "t" "r1" "pull", .logSuccess "r1"] := by
  rw [c9_json_error_logged_as_success "o" "t" "pull" "r1" [] 403
    "rate limit exceeded" (some "0") 99 [] 0 (by decide)]
  rfl

/-- Helper: the per-repository retry loop never issues a team-lookup. -/
theorem grant_loop_countP_lookup (org team repo perm : String) :
    ∀ (script : List Response) (now : Int),
      ((grant_loop org team repo perm script now).1.countP isLookupEv) = 0 := by
  intro script
  induction script with
  | nil => intro now; rfl
  | cons r rest ih =>
    intro now
    simp only [grant_loop]
    cases hadd : add_team_to_repo r with
    | ok v => simp [hadd, isLookupEv]
    | error e =>
      cases hrl : handle_rate_limiting e now with
      | none => simp [hadd, hrl, isLookupEv]
      | some t => simp [hadd, hrl, isLookupEv, List.countP_cons, ih]

/-- Helper: the bulk-grant loop never issues a team-lookup. -/
theorem add_teams_countP_lookup (org team perm : String) :
    ∀ (repos : List String) (script : List Response) (now : Int),
      ((add_teams_to_repos org team perm repos script now).countP isLookupEv) = 0 := by
  intro repos
  induction repos with
  | nil => intro script now; rfl
  | cons repo rs ih =>
    intro script now
    simp only [add_teams_to_repos]
    rw [List.countP_append, grant_loop_countP_lookup, ih]

/-- C7: the `add-team` flow performs the team-existence lookup exactly once,
before the per-repository loop; when the team does not exist, no grant
requests are issued and the user-facing message is printed. -/
theorem c7_team_checked_once_before_loop :
    ∀ (org team perm : String) (status : Nat) (repos : List String)
      (script : List Response) (now : Int),
    (run_add_team org team perm status repos script now).head? =
      some (.lookup org team) ∧
    (run_add_team org team perm status repos script now).countP isLookupEv = 1 ∧
    (team_exists status = false →
      (run_add_team org team perm status repos script now).countP isPutEv = 0 ∧
      Event.printMsg ("Team " ++ team ++ " does not exist in organization " ++ org ++ ".") ∈
        run_add_team org team perm status repos script now) := by
  intro org team perm status repos script now
  refine ⟨rfl, ?_, ?_⟩
  · cases hte : team_exists status with
    | true =>
      simp [run_add_team, hte, List.countP_cons, isLookupEv,
        add_teams_countP_lookup org team perm repos script now]
    | false =>
      simp [run_add_team, hte, List.countP_cons, isLookupEv]
  · intro hte
    simp [run_add_team, hte, List.countP_cons, isPutEv, isLookupEv]

/-- Witness for C7 at a 404 team lookup: one lookup event, no PUT events, and
the printed message is present. -/
theorem c7_team_checked_once_before_loop_witness :
    (run_add_team "o" "t" "pull" 404 ["r"] [] 0).head? = some (.lookup "o" "t") ∧
    (run_add_team "o" "t" "pull" 404 ["r"] [] 0).countP isLookupEv = 1 ∧
    team_exists 404 = false ∧
    (run_add_team "o" "t" "pull" 404 ["r"] [] 0).countP isPutEv = 0 ∧
    Event.printMsg ("Team " ++ "t" ++ " does not exist in organization " ++ "o" ++ ".") ∈
      run_add_team "o" "t" "pull" 404 ["r"] [] 0 :=
  ⟨(c7_team_checked_once_before_loop "o" "t" "pull" 404 ["r"] [] 0).1,
   (c7_team_checked_once_before_loop "o" "t" "pull" 404 ["r"] [] 0).2.1,
   by decide,
   ((c7_team_checked_once_before_loop "o" "t" "pull" 404 ["r"] [] 0).2.2 (by decide)).1,
   ((c7_team_checked_once_before_loop "o" "t" "pull" 404 ["r"] [] 0).2.2 (by decide)).2⟩

/-- C8: a repository whose fetched teams are `[(X, push)]` yields exactly the
CSV row `(repo, X, push)`, a repository with zero teams yields zero rows, a
per-repository fetch failure yields zero rows but is recorded as a logged
failure, and — by the append law — a failure anywhere never aborts the rows
of the remaining repositories; the header row always leads the CSV. -/
theorem c8_report_rows_and_isolation :
    (∀ (pre post : List (String × Except Unit (List Team))),
      report_rows (pre ++ post) =
        ((report_rows pre).1 ++ (report_rows post).1,
         (report_rows pre).2 ++ (report_rows post).2)) ∧
    (∀ (repo X : String) (rest : List (String × Except Unit (List Team))),
      report_rows ((repo, .ok [⟨X, "push"⟩]) :: rest) =
        ([repo, X, "push"] :: (report_rows rest).1, (report_rows rest).2)) ∧
    (∀ (repo : String) (rest : List (String × Except Unit (List Team))),
      report_rows ((repo, .ok ([] : List Team)) :: rest) = report_rows rest) ∧
    (∀ (repo : String) (rest : List (String × Except Unit (List Team))),
      report_rows ((repo, Except.error ()) :: rest) =
        ((report_rows rest).1, repo :: (report_rows rest).2)) ∧
    (∀ rs, (write_teams_to_csv rs).1 =
      ["Repository", "Team", "Role"] :: (report_rows rs).1) := by
  refine ⟨?_, ?_, ?_, ?_, ?_⟩
  · intro pre post
    induction pre with
    | nil => simp [report_rows]
    | cons hd rest ih =>
      obtain ⟨repo, res⟩ := hd
      cases res with
      | ok teams => simp [report_rows, ih, List.append_assoc]
      | error u => simp [report_rows, ih]
  · intro repo X rest; simp [report_rows]
  · intro repo rest; simp [report_rows]
  · intro repo rest; simp [report_rows]
  · intro rs; rfl

end ManageTeams
